import Mathlib

/-!
Verification of the core logic of the archery game
(src/archeryproj/archery.py): the bow charge/fire/cooldown/empty state
machine, arrow flight and collision-zone scoring against the three-ring
target, and the top-level context switcher.

Machine integers are modelled as Int/Nat (pygame rectangles hold integer
coordinates).  The force value, a Python float computed from the integer
class constants, is modelled exactly over the rationals.  The frame-count
constants are those produced by the init calls of the program entry point
(fps = 30): TIME_FORCE_FPS = int(0.7 * 30) = 21 and
TIME_COOLDOWN_FPS = int(1 * 30) = 30.
-/

/-- Screen width in pixels (SCREEN_WIDTH, archery.py line 8). -/
def SCREEN_WIDTH : Int := 850

/-- Screen height in pixels (SCREEN_HEIGHT, line 9). -/
def SCREEN_HEIGHT : Int := 650

/-- Score values of the target zones inner/middle/outer
(SCORE_TABLE, line 18). -/
def SCORE_TABLE : List Int := [3, 2, 1]

/-- Vertical acceleration added to an arrow's vertical speed every frame
(GRAVITY, line 20); this game sets it to zero. -/
def GRAVITY : Int := 0

/-- pygame key code of the space bar, the charge key (pygame.K_SPACE). -/
def K_SPACE : Nat := 32

/-- Kind of a pygame keyboard event: KEYDOWN or KEYUP.  The main loop
forwards exactly these two event kinds to the active context. -/
inductive EventType
  | keydown
  | keyup
deriving DecidableEq

/-- A keyboard input event as the game loop hands it to the contexts:
the pygame event type together with its key code. -/
structure Event where
  etype : EventType
  key : Nat
deriving DecidableEq

/-- Tag for the four bow states Normal/Bent/Reload/Empty
(classes NormalBowState, BentBowState, ReloadBowState, EmptyBowState). -/
inductive BowStateTag
  | normal
  | bent
  | reload
  | empty
deriving DecidableEq

/-- The fields of a Bow that its state machine reads and writes
(_ammo, _state, _bent_time, _cooldown, _rect.topleft, _speed), plus a log
of the forces of the arrows spawned by Bow.shoot and a flag recording
whether the throttled charge-animation redraw of BentBowState.update
(line 220) ran during the most recent frame. -/
structure BowM where
  ammo : Int
  state : BowStateTag
  bentTime : Nat
  cooldown : Int
  pos : Int × Int
  speed : Int × Int
  shots : List ℚ
  redrew : Bool
deriving DecidableEq

namespace Bow

/-- AMMO_MAX (line 113). -/
def AMMO_MAX : Int := 5

/-- FORCE_MIN (line 114). -/
def FORCE_MIN : ℚ := 10

/-- FORCE_MAX (line 115). -/
def FORCE_MAX : ℚ := 50

/-- TIME_FORCE_FPS = int(TIME_FORCE_S * fps) = int(0.7 * 30) = 21 frames,
as computed by the class initializer at the program's frame rate of 30
(lines 116, 187, 749). -/
def TIME_FORCE_FPS : Nat := 21

/-- TIME_COOLDOWN_FPS = int(TIME_COOLDOWN_S * fps) = 30 frames
(lines 117, 186). -/
def TIME_COOLDOWN_FPS : Int := 30

/-- ROPE_STATES (line 109), the number of discrete charge-animation steps. -/
def ROPE_STATES : Nat := 10

/-- POS_INIT (line 111). -/
def POS_INIT : Int × Int := (20, 0)

/-- SPEED (line 112). -/
def SPEED : Int × Int := (0, 8)

/-- Bow.force (lines 171-176): the linear map
(FORCE_MAX - FORCE_MIN) / TIME_FORCE_FPS * _bent_time + FORCE_MIN of the
accumulation time t = _bent_time.  The Python float arithmetic on these
integer constants is modelled exactly over the rationals. -/
def force (t : Nat) : ℚ :=
  (FORCE_MAX - FORCE_MIN) / (TIME_FORCE_FPS : ℚ) * (t : ℚ) + FORCE_MIN

/-- Bow.shoot (lines 146-152): spawn an Arrow with all the accumulated
force (recorded in the shots log) and decrement _ammo by one. -/
def shoot (b : BowM) : BowM :=
  { b with shots := b.shots ++ [force b.bentTime], ammo := b.ammo - 1 }

end Bow

/-- BentBowState constructor (lines 211-213): reset _bent_time to 0. -/
def BentBowState.enter (b : BowM) : BowM :=
  { b with state := BowStateTag.bent, bentTime := 0 }

/-- ReloadBowState constructor (lines 236-239): start the cooldown
countdown at TIME_COOLDOWN_FPS (its draw call is rendering only). -/
def ReloadBowState.enter (b : BowM) : BowM :=
  { b with state := BowStateTag.reload, cooldown := Bow.TIME_COOLDOWN_FPS }

/-- EmptyBowState constructor (lines 252-255): force the bow's speed to
zero (its draw call is rendering only). -/
def EmptyBowState.enter (b : BowM) : BowM :=
  { b with state := BowStateTag.empty, speed := (0, 0) }

/-- NormalBowState.update (lines 199-203): scan the frame's event batch;
every space KEYDOWN replaces the master's state with a freshly constructed
Bent state.  The Python loop belongs to the old Normal state object, so it
keeps scanning the rest of the batch with the Normal logic even after the
transition; this function does the same. -/
def NormalBowState.update (b : BowM) : List Event → BowM
  | [] => b
  | e :: es =>
    if e.etype = EventType.keydown ∧ e.key = K_SPACE then
      NormalBowState.update (BentBowState.enter b) es
    else
      NormalBowState.update b es

/-- Input-scanning loop of BentBowState.update (lines 221-228): every
space KEYUP in the batch calls Bow.shoot and then constructs a Reload or
an Empty state depending on the truthiness of the remaining _ammo
(`if self._master._ammo:`).  As in the source, the loop belongs to the old
Bent state object and keeps processing later events of the same batch with
the Bent logic even after a transition. -/
def BentBowState.scan (b : BowM) : List Event → BowM
  | [] => b
  | e :: es =>
    if e.etype = EventType.keyup ∧ e.key = K_SPACE then
      BentBowState.scan
        (if (Bow.shoot b).ammo ≠ 0 then ReloadBowState.enter (Bow.shoot b)
         else EmptyBowState.enter (Bow.shoot b)) es
    else
      BentBowState.scan b es

/-- BentBowState.update (lines 215-228): while _bent_time is below
TIME_FORCE_FPS, advance it by one frame and redraw exactly when the float
step = _bent_time / (TIME_FORCE_FPS // ROPE_STATES) is an integer, i.e.
when the Nat floor quotient TIME_FORCE_FPS / ROPE_STATES (= 21 / 10 = 2)
divides the new accumulation time (the float division of a small natural
number by 2 is exact, so `step.is_integer()` is exactly that
divisibility); then scan the input batch for space releases. -/
def BentBowState.update (b : BowM) (inputs : List Event) : BowM :=
  BentBowState.scan
    (if b.bentTime < Bow.TIME_FORCE_FPS then
      { b with bentTime := b.bentTime + 1,
               redrew := decide ((Bow.TIME_FORCE_FPS / Bow.ROPE_STATES) ∣ (b.bentTime + 1)) }
     else b)
    inputs

/-- ReloadBowState.update (lines 241-244): decrement the cooldown every
frame; when it reaches exactly zero, go back to Normal.  The input batch
is ignored entirely. -/
def ReloadBowState.update (b : BowM) (_ : List Event) : BowM :=
  if b.cooldown - 1 = 0 then
    { b with cooldown := b.cooldown - 1, state := BowStateTag.normal }
  else
    { b with cooldown := b.cooldown - 1 }

/-- EmptyBowState.update (lines 257-258): do nothing. -/
def EmptyBowState.update (b : BowM) (_ : List Event) : BowM := b

/-- Motion step of Bow.update (lines 140-143): move by the current speed
and invert the speed when the new vertical position crosses either
vertical screen bound (H is the height of the bow sprite, an asset
parameter).  The redrew flag is model bookkeeping: it is cleared here at
the start of every frame and set only by the Bent-state charge-animation
redraw. -/
def Bow.move (H : Int) (b : BowM) : BowM :=
  let pos := (b.pos.1 + b.speed.1, b.pos.2 + b.speed.2)
  let speed :=
    if pos.2 < 0 ∨ pos.2 > SCREEN_HEIGHT - H then (-b.speed.1, -b.speed.2) else b.speed
  { b with pos := pos, speed := speed, redrew := false }

/-- The state-specific part of Bow.update (line 144): dispatch on the
current state object after the motion step. -/
def Bow.update (H : Int) (b : BowM) (inputs : List Event) : BowM :=
  match (Bow.move H b).state with
  | BowStateTag.normal => NormalBowState.update (Bow.move H b) inputs
  | BowStateTag.bent => BentBowState.update (Bow.move H b) inputs
  | BowStateTag.reload => ReloadBowState.update (Bow.move H b) inputs
  | BowStateTag.empty => EmptyBowState.update (Bow.move H b) inputs

/-- Bow constructor (lines 121-133): full ammo, Normal state, POS_INIT
position, SPEED speed, no arrows shot yet. -/
def Bow.make : BowM :=
  { ammo := Bow.AMMO_MAX, state := BowStateTag.normal, bentTime := 0, cooldown := 0,
    pos := Bow.POS_INIT, speed := Bow.SPEED, shots := [], redrew := false }

/-- Run the bow for a sequence of frames, each frame carrying its input
batch, exactly as the main loop calls Bow.update once per frame. -/
def Bow.run (H : Int) (b : BowM) (frames : List (List Event)) : BowM :=
  frames.foldl (Bow.update H) b

/-- A space-bar KEYDOWN event (charge-begin). -/
def kdEv : Event := { etype := EventType.keydown, key := K_SPACE }

/-- A space-bar KEYUP event (charge-release). -/
def kuEv : Event := { etype := EventType.keyup, key := K_SPACE }

/-- One ordinary shot cycle as the player produces it: press space, hold,
release, then 30 idle frames during which the Reload cooldown runs out. -/
def fireCycle : List (List Event) := [[kdEv], [kuEv]] ++ List.replicate 30 []

/-- Input trace reaching ammo = 1 through four ordinary shot cycles, then
pressing space and, in one final frame, releasing, pressing and releasing
the space bar again: its event batch holds two KEYUP events. -/
def doubleReleaseTrace : List (List Event) :=
  fireCycle ++ fireCycle ++ fireCycle ++ fireCycle ++ [[kdEv], [kuEv, kdEv, kuEv]]

/-- doubleReleaseTrace continued: after the Reload cooldown runs out the
bow is Normal again and one more ordinary press/release fires again. -/
def keepFiringTrace : List (List Event) :=
  doubleReleaseTrace ++ List.replicate 30 [] ++ [[kdEv], [kuEv]]

/-- Input trace reaching ammo = 0 honestly: four ordinary shot cycles,
then a fifth press/release whose single KEYUP fires the last arrow. -/
def emptyReachedTrace : List (List Event) :=
  fireCycle ++ fireCycle ++ fireCycle ++ fireCycle ++ [[kdEv], [kuEv]]

/-- A pygame rectangle: integer topleft corner and size. -/
structure Rect where
  x : Int
  y : Int
  w : Int
  h : Int
deriving DecidableEq

/-- pygame Rect.colliderect: the two rectangles overlap in a region of
positive size (shared edges alone do not collide). -/
def Rect.colliderect (a b : Rect) : Bool :=
  decide (a.x < b.x + b.w) && decide (b.x < a.x + a.w) &&
  decide (a.y < b.y + b.h) && decide (b.y < a.y + a.h)

/-- Helper for pygame Rect.collidelist: index of the first rectangle of
the list colliding with r, counting from i; -1 when none collides. -/
def Rect.collidelistFrom (r : Rect) : List Rect → Nat → Int
  | [], _ => -1
  | s :: rest, i =>
    if r.colliderect s then (i : Int) else Rect.collidelistFrom r rest (i + 1)

/-- pygame Rect.collidelist: index of the first rectangle of the list that
collides with r, or -1 when none does. -/
def Rect.collidelist (r : Rect) (rs : List Rect) : Int :=
  Rect.collidelistFrom r rs 0

/-- pygame Rect.collidepoint: the point lies inside the rectangle (points
on the right or bottom edge are outside). -/
def Rect.containsPoint (r : Rect) (p : Int × Int) : Bool :=
  decide (r.x ≤ p.1) && decide (p.1 < r.x + r.w) &&
  decide (r.y ≤ p.2) && decide (p.2 < r.y + r.h)

namespace Arrow

/-- Arrow.SHOT (line 272): index of the flying-arrow picture. -/
def SHOT : Nat := 0

/-- Arrow.STOPPED (line 273): index of the stopped-arrow picture. -/
def STOPPED : Nat := 1

/-- Arrow.HITBOX_OFFSET (line 275). -/
def HITBOX_OFFSET : Int × Int := (165, 90)

/-- Arrow.HITBOX_SIZE (line 276). -/
def HITBOX_SIZE : Int × Int := (26, 17)

end Arrow

/-- The fields of an Arrow that Arrow.update reads and writes: the sprite
rectangle's topleft (its size is only used for drawing), the speed, the
hitbox rectangle, the current picture index, and an alive flag standing
for membership in the sprite groups that kill() clears.  The float force
stored in the speed is truncated to an integer by pygame rectangle
arithmetic, so the speed is modelled as integers. -/
structure ArrowM where
  pos : Int × Int
  speed : Int × Int
  hitbox : Rect
  img : Nat
  alive : Bool
deriving DecidableEq

/-- Arrow constructor (lines 278-291): shot from topleft with the given
horizontal force; the hitbox starts at the sprite position moved by
HITBOX_OFFSET and has size HITBOX_SIZE. -/
def Arrow.make (topleft : Int × Int) (force : Int) : ArrowM :=
  { pos := topleft,
    speed := (force, 0),
    hitbox := { x := topleft.1 + 165, y := topleft.2 + 90, w := 26, h := 17 },
    img := Arrow.SHOT,
    alive := true }

/-- The arrow's hitbox after this frame's move: _hitbox.move_ip(_speed)
with the gravity-updated speed (lines 298-300). -/
def Arrow.movedHitbox (a : ArrowM) : Rect :=
  { a.hitbox with x := a.hitbox.x + a.speed.1, y := a.hitbox.y + (a.speed.2 + GRAVITY) }

/-- Arrow.update (lines 293-308) against the target hitbox list tgt: when
the speed is not (0,0), add GRAVITY to the vertical speed, move the sprite
rectangle and the hitbox, kill the arrow when the new position exceeds the
right or bottom screen bound, then test the hitbox against the target
rectangles; on the first colliding zone freeze the speed, switch to the
stopped picture, kill the arrow and report the zone (the update_score
call) as the second component. -/
def Arrow.update (tgt : List Rect) (a : ArrowM) : ArrowM × Option Int :=
  if a.speed ≠ ((0 : Int), (0 : Int)) then
    let sp : Int × Int := (a.speed.1, a.speed.2 + GRAVITY)
    let pos : Int × Int := (a.pos.1 + sp.1, a.pos.2 + sp.2)
    let hb : Rect := Arrow.movedHitbox a
    let a1 : ArrowM := { a with speed := sp, pos := pos, hitbox := hb }
    let a2 : ArrowM :=
      if pos.1 > SCREEN_WIDTH ∨ pos.2 > SCREEN_HEIGHT then { a1 with alive := false } else a1
    let zone : Int := hb.collidelist tgt
    if zone ≠ -1 then
      ({ a2 with speed := (0, 0), img := Arrow.STOPPED, alive := false }, some zone)
    else
      (a2, none)
  else (a, none)

/-- GameContext.update_score (lines 458-465): add SCORE_TABLE[zone] to the
context's score (the rest of the method is drawing).  The zone reported by
a hit on the three-rectangle target hitbox is always 0, 1 or 2, so the
getD default is never read. -/
def GameContext.update_score (score : Int) (zone : Int) : Int :=
  score + SCORE_TABLE.getD zone.toNat 0

/-- One arrow frame as GameContext.update runs it: Arrow.update followed,
on a reported hit, by GameContext.update_score on the session's score. -/
def arrowStep (tgt : List Rect) (score : Int) (a : ArrowM) : ArrowM × Int :=
  match Arrow.update tgt a with
  | (a1, some z) => (a1, GameContext.update_score score z)
  | (a1, none) => (a1, score)

namespace Target

/-- AREAS[INNER_I] (line 335): topleft and size of the inner hit rectangle
relative to the target picture. -/
def INNER_AREA : (Int × Int) × (Int × Int) := ((79, 127), (26, 153))

/-- AREAS[MIDDLE_I] (line 336). -/
def MIDDLE_AREA : (Int × Int) × (Int × Int) := ((88, 59), (34, 289))

/-- AREAS[OUTER_I] (line 337). -/
def OUTER_AREA : (Int × Int) × (Int × Int) := ((88, 0), (42, 399))

/-- A hit rectangle as the Target constructor builds it (lines 353-361):
pygame.Rect(area topleft, area size) moved by the target's placement
offset (ox, oy) = (SCREEN_WIDTH - image width, SCREEN_HEIGHT - image
height); the image size is an asset parameter. -/
def areaRect (a : (Int × Int) × (Int × Int)) (ox oy : Int) : Rect :=
  { x := a.1.1 + ox, y := a.1.2 + oy, w := a.2.1, h := a.2.2 }

/-- The _inner_hit rectangle for placement offset (ox, oy). -/
def innerHit (ox oy : Int) : Rect := areaRect INNER_AREA ox oy

/-- The _middle_hit rectangle for placement offset (ox, oy). -/
def middleHit (ox oy : Int) : Rect := areaRect MIDDLE_AREA ox oy

/-- The _outer_hit rectangle for placement offset (ox, oy). -/
def outerHit (ox oy : Int) : Rect := areaRect OUTER_AREA ox oy

/-- Target.hitbox (lines 373-376): the tuple (inner, middle, outer), as
the list handed to collidelist by Arrow.update. -/
def hitbox (ox oy : Int) : List Rect := [innerHit ox oy, middleHit ox oy, outerHit ox oy]

end Target

/-- The space character, the separator of Python str.split(' '). -/
def spaceChar : Char := Char.ofNat 32

/-- Python str.split(' ') on a list of characters: split on every single
space, keeping empty words between consecutive spaces, exactly as
str.split with an explicit separator does. -/
def splitSp : List Char → List (List Char)
  | [] => [[]]
  | c :: cs =>
    if c = spaceChar then [] :: splitSp cs
    else
      match splitSp cs with
      | w :: ws => (c :: w) :: ws
      | [] => [[c]]

/-- A GameContext as far as the context switcher can observe it: a nominal
identity token distinguishing distinct constructions, and the session
score _score. -/
structure GameCtxM where
  id : Nat
  score : Int
deriving DecidableEq

/-- The class-level global state the context machinery touches: the
Arrow.INSTANCES sprite group (line 274, a class attribute shared by every
game session), the Bow.INSTANCE GroupSingle occupant, and a fresh-token
supply giving newly constructed context instances their identity. -/
structure Globals where
  arrowInstances : List ArrowM
  bow : BowM
  nextId : Nat
deriving DecidableEq

/-- An entry of the main loop's context_dict as the switcher returns it:
the Game context carries its observable state, the singleton Menu and
Pause contexts are identified by their instance token, Quit is a bare
stand-in object. -/
inductive ContextRef
  | gameC (c : GameCtxM)
  | menuC (id : Nat)
  | pauseC (id : Nat)
  | quitC
deriving DecidableEq

/-- The main loop's context_dict (lines 765-770): the cached instance of
the Game entry (None at startup), and the instance tokens of the cached
Menu and Pause singletons. -/
structure ContextDict where
  game : Option GameCtxM
  menuId : Nat
  pauseId : Nat
deriving DecidableEq

/-- GameContext constructor (lines 419-430): the score starts at 0, a
fresh Bow replaces the Bow.INSTANCE singleton and a Target is placed at
its fixed spot (static geometry, unchanged here).  It never touches
Arrow.INSTANCES, so arrows of an earlier session stay in the group. -/
def GameContext.new (g : Globals) : GameCtxM × Globals :=
  ({ id := g.nextId, score := 0 },
   { g with bow := Bow.make, nextId := g.nextId + 1 })

/-- context_change (lines 728-737): split the instruction on spaces into
change and option; on "Switch" return the registry's cached instance for
change (none models both a missing key and the None instance of a
never-started Game); on "New" construct a brand-new instance with the
entry's constructor, store it back into the registry and return it. -/
def context_change (d : ContextDict) (g : Globals) (instr : String) :
    Option (ContextRef × ContextDict × Globals) :=
  match splitSp instr.data with
  | [change, opt] =>
    if opt = ("Switch").data then
      if change = ("Game").data then (d.game).map (fun c => (ContextRef.gameC c, d, g))
      else if change = ("Menu").data then some (ContextRef.menuC d.menuId, d, g)
      else if change = ("Pause").data then some (ContextRef.pauseC d.pauseId, d, g)
      else if change = ("Quit").data then some (ContextRef.quitC, d, g)
      else none
    else if opt = ("New").data then
      if change = ("Game").data then
        some (ContextRef.gameC (GameContext.new g).1,
              { d with game := some (GameContext.new g).1 },
              (GameContext.new g).2)
      else if change = ("Menu").data then
        some (ContextRef.menuC g.nextId, { d with menuId := g.nextId },
              { g with nextId := g.nextId + 1 })
      else if change = ("Pause").data then
        some (ContextRef.pauseC g.nextId, { d with pauseId := g.nextId },
              { g with nextId := g.nextId + 1 })
      else if change = ("Quit").data then some (ContextRef.quitC, d, g)
      else none
    else none
  | _ => none

/-- A leftover live arrow of an old game session, still flying mid-screen. -/
def c7arrow : ArrowM := Arrow.make (100, 100) 50

/-- A global state in which the old session's arrow is still alive in
Arrow.INSTANCES. -/
def c7globals : Globals := { arrowInstances := [c7arrow], bow := Bow.make, nextId := 7 }

/-- A context registry caching an old game session with score 12. -/
def c7dict : ContextDict := { game := some { id := 3, score := 12 }, menuId := 0, pauseId := 1 }

/-- Every force in the bow's shot log was produced by Bow.force at an
accumulation time of at least one frame. -/
def shotsOK (b : BowM) : Prop :=
  ∀ f ∈ b.shots, ∃ t : Nat, 1 ≤ t ∧ f = Bow.force t

/-- The target hitbox rectangles placed at offset (720, 251), the
placement of a 130 x 399 tight target picture flush with the
bottom-right screen corner. -/
def sampleTarget : List Rect := Target.hitbox 720 251

/-- A flying arrow about to reach the inner target rectangle. -/
def c2arrow : ArrowM := Arrow.make (585, 300) 50

/-- A flying arrow about to cross the right screen bound. -/
def c6arrow : ArrowM := Arrow.make (830, 300) 50

/-- A bow in the Reload state with five cooldown frames left. -/
def c8bow : BowM := { Bow.make with state := BowStateTag.reload, cooldown := 5 }

/-- A bow in the Bent state with three frames of accumulation time. -/
def c9bow : BowM := { Bow.make with state := BowStateTag.bent, bentTime := 3 }

/-- Input trace: press space, then hold it for two frames. -/
def c9trace : List (List Event) := [[kdEv], [], []]


/-- The Bent-state input loop never changes the accumulation time. -/
theorem BentBowState.scan_bentTime (es : List Event) :
    ∀ b : BowM, (BentBowState.scan b es).bentTime = b.bentTime := by
  induction es with
  | nil => intro b; rfl
  | cons e es ih =>
    intro b
    simp only [BentBowState.scan]
    split
    · rw [ih]; split <;> rfl
    · exact ih b

/-- The Bent-state input loop never changes the redraw flag. -/
theorem BentBowState.scan_redrew (es : List Event) :
    ∀ b : BowM, (BentBowState.scan b es).redrew = b.redrew := by
  induction es with
  | nil => intro b; rfl
  | cons e es ih =>
    intro b
    simp only [BentBowState.scan]
    split
    · rw [ih]; split <;> rfl
    · exact ih b

/-- The Normal-state input loop never changes the shot log. -/
theorem NormalBowState.update_shots (es : List Event) :
    ∀ b : BowM, (NormalBowState.update b es).shots = b.shots := by
  induction es with
  | nil => intro b; rfl
  | cons e es ih =>
    intro b
    simp only [NormalBowState.update]
    split
    · rw [ih]; rfl
    · exact ih b

/-- The Normal-state input loop keeps the accumulation time at or below
the charge threshold (a fresh Bent state resets it to zero). -/
theorem NormalBowState.update_bentTime_bound (es : List Event) :
    ∀ b : BowM, b.bentTime ≤ Bow.TIME_FORCE_FPS →
      (NormalBowState.update b es).bentTime ≤ Bow.TIME_FORCE_FPS := by
  induction es with
  | nil => intro b h; exact h
  | cons e es ih =>
    intro b h
    simp only [NormalBowState.update]
    split
    · exact ih _ (Nat.zero_le _)
    · exact ih b h

/-- The Bent-state input loop preserves the shot-log property as long as
the accumulation time is at least one frame: every shot it adds records
Bow.force of the current accumulation time. -/
theorem BentBowState.scan_shotsOK (es : List Event) :
    ∀ b : BowM, 1 ≤ b.bentTime → shotsOK b → shotsOK (BentBowState.scan b es) := by
  induction es with
  | nil => intro b _ h; exact h
  | cons e es ih =>
    intro b hbt h
    simp only [BentBowState.scan]
    split
    · apply ih
      · split <;> exact hbt
      · intro f hf
        have hf1 : f ∈ b.shots ++ [Bow.force b.bentTime] := by
          revert hf; split <;> exact fun hf => hf
        rcases List.mem_append.mp hf1 with hf2 | hf2
        · exact h f hf2
        · exact ⟨b.bentTime, hbt, by simpa using hf2⟩
    · exact ih b hbt h

/-- The motion step does not touch the bow's state tag. -/
theorem Bow.move_state (H : Int) (b : BowM) : (Bow.move H b).state = b.state := rfl

/-- The motion step does not touch the accumulation time. -/
theorem Bow.move_bentTime (H : Int) (b : BowM) : (Bow.move H b).bentTime = b.bentTime := rfl

/-- The motion step does not touch the shot log. -/
theorem Bow.move_shots (H : Int) (b : BowM) : (Bow.move H b).shots = b.shots := rfl

/-- The motion step does not touch the ammo count. -/
theorem Bow.move_ammo (H : Int) (b : BowM) : (Bow.move H b).ammo = b.ammo := rfl

/-- The motion step does not touch the cooldown. -/
theorem Bow.move_cooldown (H : Int) (b : BowM) : (Bow.move H b).cooldown = b.cooldown := rfl

/-- The motion step clears the redraw flag of the previous frame. -/
theorem Bow.move_redrew (H : Int) (b : BowM) : (Bow.move H b).redrew = false := rfl

/-- A frame starting in the Normal state dispatches to the Normal update. -/
theorem Bow.update_normal (H : Int) (b : BowM) (inputs : List Event)
    (h : b.state = BowStateTag.normal) :
    Bow.update H b inputs = NormalBowState.update (Bow.move H b) inputs := by
  unfold Bow.update
  rw [Bow.move_state, h]

/-- A frame starting in the Bent state dispatches to the Bent update. -/
theorem Bow.update_bent (H : Int) (b : BowM) (inputs : List Event)
    (h : b.state = BowStateTag.bent) :
    Bow.update H b inputs = BentBowState.update (Bow.move H b) inputs := by
  unfold Bow.update
  rw [Bow.move_state, h]

/-- A frame starting in the Reload state dispatches to the Reload update. -/
theorem Bow.update_reload (H : Int) (b : BowM) (inputs : List Event)
    (h : b.state = BowStateTag.reload) :
    Bow.update H b inputs = ReloadBowState.update (Bow.move H b) inputs := by
  unfold Bow.update
  rw [Bow.move_state, h]

/-- A frame starting in the Empty state dispatches to the Empty update. -/
theorem Bow.update_empty (H : Int) (b : BowM) (inputs : List Event)
    (h : b.state = BowStateTag.empty) :
    Bow.update H b inputs = EmptyBowState.update (Bow.move H b) inputs := by
  unfold Bow.update
  rw [Bow.move_state, h]

/-- One bow frame keeps the accumulation time at or below the charge
threshold: the Bent state only increments it while it is strictly below. -/
theorem Bow.update_bentTime_le (H : Int) (inputs : List Event) :
    ∀ b : BowM, b.bentTime ≤ Bow.TIME_FORCE_FPS →
      (Bow.update H b inputs).bentTime ≤ Bow.TIME_FORCE_FPS := by
  intro b h
  cases hst : b.state
  case normal =>
    rw [Bow.update_normal H b inputs hst]
    exact NormalBowState.update_bentTime_bound inputs _ (by rw [Bow.move_bentTime]; exact h)
  case bent =>
    rw [Bow.update_bent H b inputs hst, BentBowState.update, BentBowState.scan_bentTime]
    split
    · next hlt => exact hlt
    · rw [Bow.move_bentTime]; exact h
  case reload =>
    rw [Bow.update_reload H b inputs hst, ReloadBowState.update]
    split <;> exact h
  case empty =>
    rw [Bow.update_empty H b inputs hst]
    exact h

/-- One bow frame preserves the shot-log property: any shot fired in the
frame happens inside the Bent input loop, after the frame's increment has
made the accumulation time at least one. -/
theorem Bow.update_shotsOK (H : Int) (inputs : List Event) :
    ∀ b : BowM, shotsOK b → shotsOK (Bow.update H b inputs) := by
  intro b h
  cases hst : b.state
  case normal =>
    rw [Bow.update_normal H b inputs hst]
    intro f hf
    rw [NormalBowState.update_shots] at hf
    exact h f hf
  case bent =>
    rw [Bow.update_bent H b inputs hst, BentBowState.update]
    apply BentBowState.scan_shotsOK
    · split
      · exact Nat.le_add_left 1 _
      · next hge =>
        rw [Bow.move_bentTime] at hge ⊢
        have h21 : Bow.TIME_FORCE_FPS = 21 := rfl
        omega
    · split
      · intro f hf; exact h f hf
      · intro f hf; exact h f hf
  case reload =>
    rw [Bow.update_reload H b inputs hst, ReloadBowState.update]
    split
    · intro f hf; exact h f hf
    · intro f hf; exact h f hf
  case empty =>
    rw [Bow.update_empty H b inputs hst]
    exact h

/-- Bow.run preserves the accumulation-time bound. -/
theorem Bow.run_bentTime_le (H : Int) (frames : List (List Event)) :
    ∀ b : BowM, b.bentTime ≤ Bow.TIME_FORCE_FPS →
      (Bow.run H b frames).bentTime ≤ Bow.TIME_FORCE_FPS := by
  induction frames with
  | nil => intro b h; exact h
  | cons fr frames ih =>
    intro b h
    exact ih _ (Bow.update_bentTime_le H fr b h)

/-- Bow.run preserves the shot-log property. -/
theorem Bow.run_shotsOK (H : Int) (frames : List (List Event)) :
    ∀ b : BowM, shotsOK b → shotsOK (Bow.run H b frames) := by
  induction frames with
  | nil => intro b h; exact h
  | cons fr frames ih =>
    intro b h
    exact ih _ (Bow.update_shotsOK H fr b h)

set_option maxRecDepth 100000 in
/-- C1: the claim says ammo never becomes negative, but the Bent-state
input loop keeps firing for every space KEYUP of one frame's event batch
even after the fire transition, so a batch carrying two releases while
ammo = 1 drives ammo to -1 (and, -1 being truthy, puts the bow into
Reload).  This run reaches that batch from the fresh bow through four
ordinary shot cycles. -/
theorem c1_ammo_goes_negative :
    (Bow.run 100 Bow.make doubleReleaseTrace).ammo = -1 ∧
    (Bow.run 100 Bow.make doubleReleaseTrace).state = BowStateTag.reload := by
  decide

set_option maxRecDepth 100000 in
/-- C4: the claim says the Empty state reached when ammo hits 0 is
terminal, but a second space KEYUP in the very frame that emptied the bow
fires again (ammo -1 is truthy) and moves the state to Reload, after
which the bow keeps firing: one more ordinary press/release brings ammo
to -2. -/
theorem c4_empty_state_not_terminal :
    (Bow.run 100 Bow.make emptyReachedTrace).state = BowStateTag.empty ∧
    (Bow.run 100 Bow.make emptyReachedTrace).ammo = 0 ∧
    (Bow.run 100 Bow.make emptyReachedTrace).speed = (0, 0) ∧
    (Bow.run 100 Bow.make doubleReleaseTrace).state = BowStateTag.reload ∧
    (Bow.run 100 Bow.make doubleReleaseTrace).ammo = -1 ∧
    (Bow.run 100 Bow.make keepFiringTrace).state = BowStateTag.reload ∧
    (Bow.run 100 Bow.make keepFiringTrace).ammo = -2 := by
  decide

/-- C3: for every accumulation time, Bow.force equals
FORCE_MIN + (FORCE_MAX - FORCE_MIN) * (t / charge threshold); it is
monotonically non-decreasing and lies in [FORCE_MIN, FORCE_MAX] whenever
t is at most the threshold; and the state machine indeed never lets the
accumulation time of a running bow exceed the threshold. -/
theorem c3_force_linear_monotone_clamped :
    (∀ t : Nat, Bow.force t =
        Bow.FORCE_MIN + (Bow.FORCE_MAX - Bow.FORCE_MIN) * ((t : ℚ) / (Bow.TIME_FORCE_FPS : ℚ))) ∧
    (∀ s t : Nat, s ≤ t → Bow.force s ≤ Bow.force t) ∧
    (∀ t : Nat, t ≤ Bow.TIME_FORCE_FPS →
        Bow.FORCE_MIN ≤ Bow.force t ∧ Bow.force t ≤ Bow.FORCE_MAX) ∧
    (∀ (H : Int) (frames : List (List Event)),
        (Bow.run H Bow.make frames).bentTime ≤ Bow.TIME_FORCE_FPS) := by
  refine ⟨?_, ?_, ?_, ?_⟩
  · intro t
    simp only [Bow.force, Bow.FORCE_MIN, Bow.FORCE_MAX, Bow.TIME_FORCE_FPS]
    push_cast
    ring
  · intro s t h
    have hc : (s : ℚ) ≤ (t : ℚ) := by exact_mod_cast h
    simp only [Bow.force, Bow.FORCE_MIN, Bow.FORCE_MAX, Bow.TIME_FORCE_FPS]
    push_cast
    have h40 : (0 : ℚ) ≤ (50 - 10) / 21 := by norm_num
    nlinarith
  · intro t ht
    have hc : (t : ℚ) ≤ 21 := by exact_mod_cast ht
    have hc0 : (0 : ℚ) ≤ (t : ℚ) := Nat.cast_nonneg t
    simp only [Bow.force, Bow.FORCE_MIN, Bow.FORCE_MAX, Bow.TIME_FORCE_FPS]
    push_cast
    constructor <;> nlinarith
  · intro H frames
    exact Bow.run_bentTime_le H frames Bow.make (Nat.zero_le _)

/-- C3 witness: the amended statement evaluated at concrete accumulation
times; full charge gives exactly FORCE_MAX. -/
theorem c3_force_linear_monotone_clamped_witness :
    Bow.force 21 =
        Bow.FORCE_MIN + (Bow.FORCE_MAX - Bow.FORCE_MIN) * ((21 : ℚ) / (Bow.TIME_FORCE_FPS : ℚ)) ∧
    Bow.force 3 ≤ Bow.force 7 ∧
    (Bow.FORCE_MIN ≤ Bow.force 21 ∧ Bow.force 21 ≤ Bow.FORCE_MAX) ∧
    (Bow.run 100 Bow.make [[kdEv], []]).bentTime ≤ Bow.TIME_FORCE_FPS := by
  refine ⟨?_, ?_, ?_, ?_⟩
  · have h := c3_force_linear_monotone_clamped.1 21
    exact_mod_cast h
  · exact c3_force_linear_monotone_clamped.2.1 3 7 (by norm_num)
  · exact c3_force_linear_monotone_clamped.2.2.1 21 (by decide)
  · exact c3_force_linear_monotone_clamped.2.2.2 100 [[kdEv], []]

/-- C10: every force in the shot log of a bow run from its fresh state
was produced at an accumulation time of at least one frame (the Bent
state increments the time before scanning the batch for releases, and a
release in the frame that entered Bent is invisible to the Bent state),
so every arrow's horizontal speed is at least
FORCE_MIN + (FORCE_MAX - FORCE_MIN) / TIME_FORCE_FPS, strictly above
FORCE_MIN. -/
theorem c10_shot_force_strictly_above_minimum (H : Int) (frames : List (List Event)) (f : ℚ)
    (hf : f ∈ (Bow.run H Bow.make frames).shots) :
    (∃ t : Nat, 1 ≤ t ∧ f = Bow.force t) ∧
    Bow.FORCE_MIN + (Bow.FORCE_MAX - Bow.FORCE_MIN) / (Bow.TIME_FORCE_FPS : ℚ) ≤ f ∧
    Bow.FORCE_MIN < f := by
  have hrun : shotsOK (Bow.run H Bow.make frames) := by
    apply Bow.run_shotsOK
    intro g hg
    simp [Bow.make] at hg
  obtain ⟨t, ht, rfl⟩ := hrun f hf
  refine ⟨⟨t, ht, rfl⟩, ?_, ?_⟩
  · have hc : (1 : ℚ) ≤ (t : ℚ) := by exact_mod_cast ht
    simp only [Bow.force, Bow.FORCE_MIN, Bow.FORCE_MAX, Bow.TIME_FORCE_FPS]
    push_cast
    nlinarith
  · have hc : (1 : ℚ) ≤ (t : ℚ) := by exact_mod_cast ht
    simp only [Bow.force, Bow.FORCE_MIN, Bow.FORCE_MAX, Bow.TIME_FORCE_FPS]
    push_cast
    nlinarith

/-- C10 witness: the quickest possible shot, pressed in one frame and
released in the next, carries force Bow.force 1 = 250/21 > FORCE_MIN. -/
theorem c10_shot_force_strictly_above_minimum_witness :
    (∃ t : Nat, 1 ≤ t ∧ Bow.force 1 = Bow.force t) ∧
    Bow.FORCE_MIN + (Bow.FORCE_MAX - Bow.FORCE_MIN) / (Bow.TIME_FORCE_FPS : ℚ) ≤ Bow.force 1 ∧
    Bow.FORCE_MIN < Bow.force 1 :=
  c10_shot_force_strictly_above_minimum 100 [[kdEv], [kuEv]] (Bow.force 1)
    (by rw [show (Bow.run 100 Bow.make [[kdEv], [kuEv]]).shots = [Bow.force 1] from rfl]
        exact List.mem_cons_self (Bow.force 1) [])

/-- C8: in the Reload state every frame decrements the cooldown by
exactly one, the bow goes back to Normal exactly when the countdown
reaches zero, and the frame's outcome is entirely independent of the
input batch (a charge-begin during Reload is ignored); ammo and the
shot log are untouched. -/
theorem c8_reload_counts_down_ignoring_input (H : Int) (b : BowM)
    (inputs inputs2 : List Event) (h : b.state = BowStateTag.reload) :
    (Bow.update H b inputs).cooldown = b.cooldown - 1 ∧
    ((Bow.update H b inputs).state = BowStateTag.normal ↔ b.cooldown - 1 = 0) ∧
    ((Bow.update H b inputs).state = BowStateTag.reload ↔ b.cooldown - 1 ≠ 0) ∧
    (Bow.update H b inputs).ammo = b.ammo ∧
    (Bow.update H b inputs).shots = b.shots ∧
    Bow.update H b inputs = Bow.update H b inputs2 := by
  simp only [Bow.update_reload H b inputs h, Bow.update_reload H b inputs2 h,
    ReloadBowState.update, Bow.move_cooldown]
  by_cases hcd : b.cooldown - 1 = 0 <;>
    simp [hcd, Bow.move_ammo, Bow.move_shots, Bow.move_state, h]

/-- C8 witness: the Reload bow with five cooldown frames left, updated
once with a charge-begin in the batch and once with an empty batch. -/
theorem c8_reload_counts_down_ignoring_input_witness :
    (Bow.update 100 c8bow [kdEv]).cooldown = c8bow.cooldown - 1 ∧
    ((Bow.update 100 c8bow [kdEv]).state = BowStateTag.normal ↔ c8bow.cooldown - 1 = 0) ∧
    ((Bow.update 100 c8bow [kdEv]).state = BowStateTag.reload ↔ c8bow.cooldown - 1 ≠ 0) ∧
    (Bow.update 100 c8bow [kdEv]).ammo = c8bow.ammo ∧
    (Bow.update 100 c8bow [kdEv]).shots = c8bow.shots ∧
    Bow.update 100 c8bow [kdEv] = Bow.update 100 c8bow [] :=
  c8_reload_counts_down_ignoring_input 100 c8bow [kdEv] [] rfl

/-- An accumulation time t is an exact (integer) multiple of
charge duration / redraw steps = TIME_FORCE_FPS / ROPE_STATES, a
rational, exactly when TIME_FORCE_FPS divides ROPE_STATES * t. -/
theorem exact_multiple_of_step_iff (t : Nat) :
    (∃ k : Nat, (t : ℚ) = (k : ℚ) * ((Bow.TIME_FORCE_FPS : ℚ) / (Bow.ROPE_STATES : ℚ))) ↔
    Bow.TIME_FORCE_FPS ∣ Bow.ROPE_STATES * t := by
  simp only [Bow.TIME_FORCE_FPS, Bow.ROPE_STATES]
  constructor
  · rintro ⟨k, hk⟩
    refine ⟨k, ?_⟩
    have h10 : ((10 : Nat) : ℚ) * (t : ℚ) = ((21 : Nat) : ℚ) * (k : ℚ) := by
      push_cast
      push_cast at hk
      field_simp at hk
      linarith
    exact_mod_cast h10
  · rintro ⟨k, hk⟩
    refine ⟨k, ?_⟩
    have h10 : ((10 * t : Nat) : ℚ) = ((21 * k : Nat) : ℚ) := by exact_mod_cast congrArg Nat.cast hk
    push_cast at h10
    field_simp
    linarith

/-- C9 counterexample: read with real division, the claim is false: in
the third frame of this run the Bent state performs the throttled redraw
at accumulation time 2, yet 2 is not an integer multiple of
charge duration / redraw steps = 21 / 10: by exact_multiple_of_step_iff
that would need TIME_FORCE_FPS = 21 to divide ROPE_STATES * 2 = 20. -/
theorem c9_redraw_not_at_exact_multiples :
    (Bow.run 100 Bow.make c9trace).redrew = true ∧
    (Bow.run 100 Bow.make c9trace).bentTime = 2 ∧
    ¬ Bow.TIME_FORCE_FPS ∣ Bow.ROPE_STATES * (Bow.run 100 Bow.make c9trace).bentTime := by
  decide

/-- C9 amended: in a Bent frame the accumulation time advances only
while it is strictly below the threshold, and the throttled redraw runs
exactly when it does advance to a multiple of the integer floor quotient
TIME_FORCE_FPS / ROPE_STATES = 2 (the Python expression uses floor
division, TIME_FORCE_FPS // ROPE_STATES). -/
theorem c9_redraw_iff_floor_step_divides (H : Int) (b : BowM) (inputs : List Event)
    (h : b.state = BowStateTag.bent) :
    ((Bow.update H b inputs).bentTime =
        if b.bentTime < Bow.TIME_FORCE_FPS then b.bentTime + 1 else b.bentTime) ∧
    ((Bow.update H b inputs).redrew = true ↔
        b.bentTime < Bow.TIME_FORCE_FPS ∧
          (Bow.TIME_FORCE_FPS / Bow.ROPE_STATES) ∣ (b.bentTime + 1)) := by
  rw [Bow.update_bent H b inputs h, BentBowState.update, BentBowState.scan_bentTime,
    BentBowState.scan_redrew, Bow.move_bentTime]
  by_cases hbt : b.bentTime < Bow.TIME_FORCE_FPS <;>
    simp [hbt, Bow.move_bentTime, Bow.move_redrew]

/-- C9 amended witness: the Bent bow at accumulation time 3 advances to
4 and redraws, 2 dividing 4. -/
theorem c9_redraw_iff_floor_step_divides_witness :
    ((Bow.update 100 c9bow []).bentTime =
        if c9bow.bentTime < Bow.TIME_FORCE_FPS then c9bow.bentTime + 1 else c9bow.bentTime) ∧
    ((Bow.update 100 c9bow []).redrew = true ↔
        c9bow.bentTime < Bow.TIME_FORCE_FPS ∧
          (Bow.TIME_FORCE_FPS / Bow.ROPE_STATES) ∣ (c9bow.bentTime + 1)) :=
  c9_redraw_iff_floor_step_divides 100 c9bow [] rfl

/-- A rectangle whose right edge is at or left of another rectangle's
left edge does not collide with it. -/
theorem Rect.colliderect_eq_false_of_left_ge (a b : Rect) (h : b.x + b.w ≤ a.x) :
    a.colliderect b = false := by
  have hn : ¬ (a.x < b.x + b.w) := by omega
  simp [Rect.colliderect, hn]

/-- A rectangle whose bottom edge is at or above another rectangle's top
edge does not collide with it. -/
theorem Rect.colliderect_eq_false_of_top_ge (a b : Rect) (h : b.y + b.h ≤ a.y) :
    a.colliderect b = false := by
  have hn : ¬ (a.y < b.y + b.h) := by omega
  simp [Rect.colliderect, hn]

/-- C2: a live arrow whose moved hitbox intersects one of the three
target rectangles is updated to a stopped, dead arrow with zero speed;
the update reports exactly the first matching zone, the session score
grows by SCORE_TABLE of that zone (3/2/1 for inner/middle/outer), and a
further update of the resulting arrow is a no-op reporting nothing. -/
theorem c2_hit_reports_first_zone_once_then_dead (t1 t2 t3 : Rect) (a : ArrowM) (s : Int)
    (hlive : a.speed ≠ ((0 : Int), (0 : Int)))
    (hhit : (Arrow.movedHitbox a).colliderect t1 = true ∨
            (Arrow.movedHitbox a).colliderect t2 = true ∨
            (Arrow.movedHitbox a).colliderect t3 = true) :
    (Arrow.update [t1, t2, t3] a).1.speed = (0, 0) ∧
    (Arrow.update [t1, t2, t3] a).1.img = Arrow.STOPPED ∧
    (Arrow.update [t1, t2, t3] a).1.alive = false ∧
    (Arrow.update [t1, t2, t3] a).2 =
      some ((Arrow.movedHitbox a).collidelist [t1, t2, t3]) ∧
    arrowStep [t1, t2, t3] s a =
      ((Arrow.update [t1, t2, t3] a).1,
        s + SCORE_TABLE.getD ((Arrow.movedHitbox a).collidelist [t1, t2, t3]).toNat 0) ∧
    ((Arrow.movedHitbox a).collidelist [t1, t2, t3] = 0 →
      (Arrow.movedHitbox a).colliderect t1 = true ∧ SCORE_TABLE.getD 0 0 = 3) ∧
    ((Arrow.movedHitbox a).collidelist [t1, t2, t3] = 1 →
      (Arrow.movedHitbox a).colliderect t1 = false ∧
      (Arrow.movedHitbox a).colliderect t2 = true ∧ SCORE_TABLE.getD 1 0 = 2) ∧
    ((Arrow.movedHitbox a).collidelist [t1, t2, t3] = 2 →
      (Arrow.movedHitbox a).colliderect t1 = false ∧
      (Arrow.movedHitbox a).colliderect t2 = false ∧
      (Arrow.movedHitbox a).colliderect t3 = true ∧ SCORE_TABLE.getD 2 0 = 1) ∧
    Arrow.update [t1, t2, t3] (Arrow.update [t1, t2, t3] a).1 =
      ((Arrow.update [t1, t2, t3] a).1, none) := by
  have hlive0 : a.speed ≠ (0 : Int × Int) := hlive
  cases hc1 : (Arrow.movedHitbox a).colliderect t1 <;>
    cases hc2 : (Arrow.movedHitbox a).colliderect t2 <;>
      cases hc3 : (Arrow.movedHitbox a).colliderect t3
  case false.false.false => simp [hc1, hc2, hc3] at hhit
  all_goals
    simp [Arrow.update, arrowStep, GameContext.update_score, Rect.collidelist,
      Rect.collidelistFrom, SCORE_TABLE, hlive0, hc1, hc2, hc3]

/-- C2 witness: the sample arrow reaches the inner rectangle of the
sample target placement; the update reports zone 0 and adds 3 points. -/
theorem c2_hit_reports_first_zone_once_then_dead_witness :
    (Arrow.update [Target.innerHit 720 251, Target.middleHit 720 251, Target.outerHit 720 251]
        c2arrow).1.speed = (0, 0) ∧
    (Arrow.update [Target.innerHit 720 251, Target.middleHit 720 251, Target.outerHit 720 251]
        c2arrow).1.img = Arrow.STOPPED ∧
    (Arrow.update [Target.innerHit 720 251, Target.middleHit 720 251, Target.outerHit 720 251]
        c2arrow).1.alive = false ∧
    (Arrow.update [Target.innerHit 720 251, Target.middleHit 720 251, Target.outerHit 720 251]
        c2arrow).2 =
      some ((Arrow.movedHitbox c2arrow).collidelist
        [Target.innerHit 720 251, Target.middleHit 720 251, Target.outerHit 720 251]) ∧
    arrowStep [Target.innerHit 720 251, Target.middleHit 720 251, Target.outerHit 720 251]
        0 c2arrow =
      ((Arrow.update [Target.innerHit 720 251, Target.middleHit 720 251, Target.outerHit 720 251]
          c2arrow).1,
        0 + SCORE_TABLE.getD ((Arrow.movedHitbox c2arrow).collidelist
          [Target.innerHit 720 251, Target.middleHit 720 251, Target.outerHit 720 251]).toNat 0) ∧
    ((Arrow.movedHitbox c2arrow).collidelist
        [Target.innerHit 720 251, Target.middleHit 720 251, Target.outerHit 720 251] = 0 →
      (Arrow.movedHitbox c2arrow).colliderect (Target.innerHit 720 251) = true ∧
      SCORE_TABLE.getD 0 0 = 3) ∧
    ((Arrow.movedHitbox c2arrow).collidelist
        [Target.innerHit 720 251, Target.middleHit 720 251, Target.outerHit 720 251] = 1 →
      (Arrow.movedHitbox c2arrow).colliderect (Target.innerHit 720 251) = false ∧
      (Arrow.movedHitbox c2arrow).colliderect (Target.middleHit 720 251) = true ∧
      SCORE_TABLE.getD 1 0 = 2) ∧
    ((Arrow.movedHitbox c2arrow).collidelist
        [Target.innerHit 720 251, Target.middleHit 720 251, Target.outerHit 720 251] = 2 →
      (Arrow.movedHitbox c2arrow).colliderect (Target.innerHit 720 251) = false ∧
      (Arrow.movedHitbox c2arrow).colliderect (Target.middleHit 720 251) = false ∧
      (Arrow.movedHitbox c2arrow).colliderect (Target.outerHit 720 251) = true ∧
      SCORE_TABLE.getD 2 0 = 1) ∧
    Arrow.update [Target.innerHit 720 251, Target.middleHit 720 251, Target.outerHit 720 251]
        (Arrow.update [Target.innerHit 720 251, Target.middleHit 720 251, Target.outerHit 720 251]
          c2arrow).1 =
      ((Arrow.update [Target.innerHit 720 251, Target.middleHit 720 251, Target.outerHit 720 251]
          c2arrow).1, none) :=
  c2_hit_reports_first_zone_once_then_dead (Target.innerHit 720 251) (Target.middleHit 720 251)
    (Target.outerHit 720 251) c2arrow 0 (by decide) (Or.inl (by decide))

/-- C6: a live arrow whose moved position exceeds the right or bottom
screen bound is killed by that frame's update and reports no score,
provided the three target rectangles lie inside the screen (as the real
target placement does) and the arrow's hitbox sits at its construction
offset from the sprite position (as Arrow.make establishes and every
update preserves). -/
theorem c6_out_of_bounds_despawns_scoreless (t1 t2 t3 : Rect) (a : ArrowM) (s : Int)
    (hoffx : a.hitbox.x = a.pos.1 + 165)
    (hoffy : a.hitbox.y = a.pos.2 + 90)
    (hin : ∀ r ∈ [t1, t2, t3], r.x + r.w ≤ SCREEN_WIDTH ∧ r.y + r.h ≤ SCREEN_HEIGHT)
    (hlive : a.speed ≠ ((0 : Int), (0 : Int)))
    (hoob : a.pos.1 + a.speed.1 > SCREEN_WIDTH ∨
            a.pos.2 + (a.speed.2 + GRAVITY) > SCREEN_HEIGHT) :
    (Arrow.update [t1, t2, t3] a).2 = none ∧
    (Arrow.update [t1, t2, t3] a).1.alive = false ∧
    arrowStep [t1, t2, t3] s a = ((Arrow.update [t1, t2, t3] a).1, s) := by
  have hlive0 : a.speed ≠ (0 : Int × Int) := hlive
  have hsw : SCREEN_WIDTH = 850 := rfl
  have hsh : SCREEN_HEIGHT = 650 := rfl
  have hg : GRAVITY = 0 := rfl
  have hkill : ∀ r : Rect, r.x + r.w ≤ SCREEN_WIDTH → r.y + r.h ≤ SCREEN_HEIGHT →
      (Arrow.movedHitbox a).colliderect r = false := by
    intro r hrx hry
    rcases hoob with hx | hy
    · apply Rect.colliderect_eq_false_of_left_ge
      simp only [Arrow.movedHitbox]
      omega
    · apply Rect.colliderect_eq_false_of_top_ge
      simp only [Arrow.movedHitbox]
      omega
  have k1 := hkill t1 (hin t1 (by simp)).1 (hin t1 (by simp)).2
  have k2 := hkill t2 (hin t2 (by simp)).1 (hin t2 (by simp)).2
  have k3 := hkill t3 (hin t3 (by simp)).1 (hin t3 (by simp)).2
  simp [Arrow.update, arrowStep, Rect.collidelist, Rect.collidelistFrom,
    hlive0, k1, k2, k3, hoob]

/-- C6 witness: the sample arrow crosses the right bound of the screen
and despawns with no score against the sample target placement. -/
theorem c6_out_of_bounds_despawns_scoreless_witness :
    (Arrow.update [Target.innerHit 720 251, Target.middleHit 720 251, Target.outerHit 720 251]
        c6arrow).2 = none ∧
    (Arrow.update [Target.innerHit 720 251, Target.middleHit 720 251, Target.outerHit 720 251]
        c6arrow).1.alive = false ∧
    arrowStep [Target.innerHit 720 251, Target.middleHit 720 251, Target.outerHit 720 251]
        0 c6arrow =
      ((Arrow.update [Target.innerHit 720 251, Target.middleHit 720 251, Target.outerHit 720 251]
          c6arrow).1, 0) :=
  c6_out_of_bounds_despawns_scoreless (Target.innerHit 720 251) (Target.middleHit 720 251)
    (Target.outerHit 720 251) c6arrow 0 rfl rfl (by decide) (by decide) (Or.inl (by decide))

/-- C5 counterexample: the rectangles are not nested.  The inner hit
rectangle starts at local x = 79 while the middle one starts at x = 88,
so the inner rectangle's left strip lies outside the middle (and outside
the outer) rectangle; the witness point is the inner rectangle's own
topleft corner.  Both rectangles are moved by the same placement offset,
so the failure is independent of the target's position. -/
theorem c5_inner_not_nested_in_middle :
    Rect.containsPoint (Target.innerHit 0 0) (79, 127) = true ∧
    Rect.containsPoint (Target.middleHit 0 0) (79, 127) = false ∧
    Rect.containsPoint (Target.outerHit 0 0) (79, 127) = false ∧
    ¬ ∀ (ox oy : Int) (p : Int × Int),
        Rect.containsPoint (Target.innerHit ox oy) p = true →
        Rect.containsPoint (Target.middleHit ox oy) p = true := by
  refine ⟨by decide, by decide, by decide, ?_⟩
  intro hmono
  exact absurd (hmono 0 0 (79, 127) (by decide)) (by decide)

/-- C5 amended: of the claimed nesting chain only middle within outer
holds: every point of the middle hit rectangle lies in the outer hit
rectangle, for every placement offset.  The rectangles themselves are
pure functions of the placement and nothing in the model (or the source,
after Target construction) mutates them; the inner rectangle however is
not contained in the middle one. -/
theorem c5_middle_nested_in_outer (ox oy : Int) (p : Int × Int)
    (h : Rect.containsPoint (Target.middleHit ox oy) p = true) :
    Rect.containsPoint (Target.outerHit ox oy) p = true := by
  simp only [Rect.containsPoint, Target.middleHit, Target.outerHit, Target.areaRect,
    Target.MIDDLE_AREA, Target.OUTER_AREA, Bool.and_eq_true, decide_eq_true_eq] at h ⊢
  omega

/-- C5 amended witness: a point of the middle rectangle at the sample
placement, also inside the outer rectangle. -/
theorem c5_middle_nested_in_outer_witness :
    Rect.containsPoint (Target.outerHit 720 251) (810, 320) = true :=
  c5_middle_nested_in_outer 720 251 (810, 320) (by decide)

/-- C7 counterexample: issuing "Game New" over a registry that cached an
old game session (score 12) with one of its arrows still alive in the
global Arrow.INSTANCES group does construct a fresh context with score 0
and store it in the registry, but the global arrow group still holds the
old session's arrow afterwards: the new session does not shed the
previous session's live arrows (GameContext.update drives the shared
Arrow.INSTANCES group, lines 437-447). -/
theorem c7_old_arrows_survive_new_game :
    context_change c7dict c7globals ("Game New") =
      some (ContextRef.gameC { id := 7, score := 0 },
            { c7dict with game := some { id := 7, score := 0 } },
            { c7globals with bow := Bow.make, nextId := 8 }) ∧
    ({ c7globals with bow := Bow.make, nextId := 8 }).arrowInstances = [c7arrow] ∧
    c7arrow.alive = true ∧
    c7globals.arrowInstances ≠ [] := by
  refine ⟨by decide, by decide, by decide, by decide⟩

/-- C7 amended: "Menu Switch" always returns the registry's cached Menu
instance and leaves registry and globals untouched (so every issue of it
yields the same instance); "Game New" returns a brand-new game context
with score 0, distinct from the cached old session, stores it in the
registry and resets the Bow singleton — but it leaves the global arrow
group exactly as it was, so the previous session's live arrows persist. -/
theorem c7_menu_cached_and_game_new_fresh (d : ContextDict) (g : Globals) (c0 : GameCtxM)
    (hold : d.game = some c0) (hfresh : c0.id < g.nextId) :
    context_change d g ("Menu Switch") = some (ContextRef.menuC d.menuId, d, g) ∧
    context_change d g ("Game New") =
      some (ContextRef.gameC { id := g.nextId, score := 0 },
            { d with game := some { id := g.nextId, score := 0 } },
            { g with bow := Bow.make, nextId := g.nextId + 1 }) ∧
    ({ id := g.nextId, score := 0 } : GameCtxM) ≠ c0 ∧
    ({ g with bow := Bow.make, nextId := g.nextId + 1 }).arrowInstances = g.arrowInstances := by
  refine ⟨rfl, rfl, ?_, rfl⟩
  intro heq
  have hid := congrArg GameCtxM.id heq
  simp only at hid
  omega

/-- C7 amended witness: the amended statement at the sample registry and
globals, whose cached game session has id 3 and score 12. -/
theorem c7_menu_cached_and_game_new_fresh_witness :
    context_change c7dict c7globals ("Menu Switch") =
      some (ContextRef.menuC c7dict.menuId, c7dict, c7globals) ∧
    context_change c7dict c7globals ("Game New") =
      some (ContextRef.gameC { id := c7globals.nextId, score := 0 },
            { c7dict with game := some { id := c7globals.nextId, score := 0 } },
            { c7globals with bow := Bow.make, nextId := c7globals.nextId + 1 }) ∧
    ({ id := c7globals.nextId, score := 0 } : GameCtxM) ≠ { id := 3, score := 12 } ∧
    ({ c7globals with bow := Bow.make, nextId := c7globals.nextId + 1 }).arrowInstances =
      c7globals.arrowInstances :=
  c7_menu_cached_and_game_new_fresh c7dict c7globals { id := 3, score := 12 } rfl (by decide)
